import Mathlib

/-!
# Verification of `src/sample_supabase_agent.py`

A shallow embedding of the single-endpoint FastAPI service in
`src/sample_supabase_agent.py`.  The service authenticates a bearer token,
fetches recent conversation history from a Supabase `messages` table,
stores the user's query, calls an external chat-completion API, stores the
assistant's reply (or an apology message on failure), and returns a JSON
body `{success: bool}`.

External effects (the Supabase store and the HTTP completion endpoint) are
modelled by an environment record `Env` that fixes the outcome of each
external interaction of one request; the handler is then a pure function
from the request and that environment to its HTTP-level result together
with the trace of store operations it performed.
-/

namespace SupabaseAgent

/-- JSON values, as produced by `response.json()` / stored in the
`messages` table.  Numbers are irrelevant to every claim, so they are
carried as integers. -/
inductive Json where
  | null : Json
  | bool (b : Bool) : Json
  | num (n : Int) : Json
  | str (s : String) : Json
  | arr (elems : List Json) : Json
  | obj (fields : List (String × Json)) : Json

/-- Python exceptions that the handler's code paths can raise.
`httpException` is `fastapi.HTTPException(status_code, detail)`;
the others are the built-in exceptions the completion-response
extraction expression can raise, each carrying the text `str(e)`
would render. -/
inductive PyExc where
  | httpException (status_code : Nat) (detail : String)
  | indexError (msg : String)
  | keyError (msg : String)
  | typeError (msg : String)
  | attributeError (msg : String)
  deriving Repr, DecidableEq

/-- `str(e)` for each modelled exception.  Starlette's `HTTPException.__str__`
renders `f"{status_code}: {detail}"`; the built-ins render their message. -/
def strOfExc : PyExc → String
  | .httpException code detail => toString code ++ ": " ++ detail
  | .indexError msg => msg
  | .keyError msg => msg
  | .typeError msg => msg
  | .attributeError msg => msg

/-- The nested `message` object `store_message` builds and inserts:
`{"type": ..., "content": ...}` plus `"data"` only when the `data`
argument is truthy. -/
structure MessageObj where
  type : String
  content : Json
  data : Option (List (String × String))

/-- `store_message`'s construction of `message_obj`: the `data` key is added
only under Python's `if data:` — so `None` and the empty dict both leave it
absent. -/
def mkMessageObj (message_type : String) (content : Json)
    (data : Option (List (String × String))) : MessageObj :=
  { type := message_type
    content := content
    data := match data with
      | none => none
      | some [] => none
      | some l => some l }

/-- A row of the Supabase `messages` table as the select in
`fetch_conversation_history` returns it: a `session_id`, the nested
`message` object and the server-assigned `created_at` timestamp used
for ordering. -/
structure Row where
  session_id : String
  created_at : Nat
  message : MessageObj

/-- The inbound request body (`AgentRequest` in the source). -/
structure AgentRequest where
  query : String
  user_id : String
  request_id : String
  session_id : String
  deriving Repr, DecidableEq

/-! ## Token verification (`verify_token`, lines 44-57) -/

/-- `verify_token`: the `API_BEARER_TOKEN` environment variable
(`none` = unset) against the presented bearer credentials.  Python's
`if not expected_token:` is true for both `None` and the empty string,
so either raises the 500 configuration error; a mismatching credential
raises the 401 authentication error; otherwise the function returns
`True`. -/
def verify_token (expected_token : Option String) (credentials : String) :
    Except PyExc Bool :=
  match expected_token with
  | none =>
      .error (.httpException 500 "API_BEARER_TOKEN environment variable not set")
  | some t =>
      if t = "" then
        .error (.httpException 500 "API_BEARER_TOKEN environment variable not set")
      else if credentials ≠ t then
        .error (.httpException 401 "Invalid authentication token")
      else
        .ok true

/-- Models `fastapi.security.HTTPBearer` (the `security` dependency,
line 18, with its default `auto_error=True`): when the request carries no
bearer `Authorization` header it raises `HTTPException(403, "Not
authenticated")` before `verify_token` ever runs; otherwise it hands the
extracted credential string to the dependent. -/
def http_bearer (authorization : Option String) : Except PyExc String :=
  match authorization with
  | none => .error (.httpException 403 "Not authenticated")
  | some credentials => .ok credentials

/-! ## History fetching (`fetch_conversation_history`, lines 59-73) -/

/-- The outcome of the Supabase select
`table("messages").select("*").eq("session_id", sid).order("created_at",
desc=True).limit(limit).execute()`: either the store raises (carrying
`str(e)`) or it returns `response.data`, the matching rows newest-first. -/
def QueryOutcome := Except String (List Row)

/-- `fetch_conversation_history`: on success, `response.data[::-1]` — the
store's newest-first rows reversed into chronological order; a store
exception is re-raised as `HTTPException(500, "Failed to fetch conversation
history: " + str(e))`. (The `limit` argument, default 10, is applied
store-side and so is part of the query outcome.) -/
def fetch_conversation_history (outcome : Except String (List Row)) :
    Except PyExc (List Row) :=
  match outcome with
  | .error e =>
      .error (.httpException 500 ("Failed to fetch conversation history: " ++ e))
  | .ok data => .ok data.reverse

/-- A `{"role": ..., "content": ...}` entry of the `messages` list the
handler assembles from the fetched history (lines 103-109). -/
structure ChatMessage where
  role : String
  content : Json

/-- The handler's projection loop (lines 103-109): each fetched row's nested
`message.type` becomes `role` and `message.content` becomes `content`,
in the order of the fetched (already reversed) history. -/
def convertHistory (conversation_history : List Row) : List ChatMessage :=
  conversation_history.map fun msg =>
    { role := msg.message.type, content := msg.message.content }

/-! ## Completion-response extraction (line 156)

`model_response = response_data.get("choices", [{}])[0].get("message", {}).get("content", "")`

Each Python primitive of that expression is modelled separately so the
expression's exception behaviour is preserved exactly. -/

/-- Key lookup in a JSON object as `json.loads` builds Python dicts: a
repeated key keeps its last occurrence. -/
def dictLookup (fields : List (String × Json)) (key : String) : Option Json :=
  fields.reverse.lookup key

/-- Python's `d.get(key, default)`: dict lookup with a default; on any
non-dict receiver the attribute access itself raises `AttributeError`. -/
def pyGet (receiver : Json) (key : String) (default : Json) : Except PyExc Json :=
  match receiver with
  | .obj fields => .ok ((dictLookup fields key).getD default)
  | _ => .error (.attributeError ("object has no attribute " ++ "get"))

/-- Python's `x[0]`: first element of a list (or `IndexError` when empty),
first character of a string (or `IndexError`), `KeyError` on a dict (JSON
object keys are strings, never the integer `0`), `TypeError` otherwise. -/
def pySubscriptZero (receiver : Json) : Except PyExc Json :=
  match receiver with
  | .arr [] => .error (.indexError "list index out of range")
  | .arr (x :: _) => .ok x
  | .str s =>
      match s.data with
      | [] => .error (.indexError "string index out of range")
      | c :: _ => .ok (.str (String.mk [c]))
  | .obj _ => .error (.keyError "0")
  | _ => .error (.typeError "object is not subscriptable")

/-- The extraction expression of line 156, with Python's defaults:
`response_data.get("choices", [{}])[0].get("message", {}).get("content", "")`. -/
def extract_model_response (response_data : Json) : Except PyExc Json := do
  let choices ← pyGet response_data "choices" (Json.arr [Json.obj []])
  let first ← pySubscriptZero choices
  let message ← pyGet first "message" (Json.obj [])
  pyGet message "content" (Json.str "")

/-! ## The completion call (lines 118-164) -/

/-- The fixed completion endpoint URL (line 118). -/
def completionUrl : String := "https://api.together.xyz/v1/chat/completions"

/-- The outcome of `requests.post(url, json=payload, headers=headers)`:
either the request itself raises a `requests.exceptions.RequestException`
(network fault) carrying `str(e)`, or an HTTP response arrives with a
status code, a reason phrase, and a body whose JSON decoding either fails
(carrying the decode error's text) or yields a `Json` value. -/
inductive PostOutcome where
  | netError (detail : String)
  | response (status : Nat) (reason : String) (body : Except String Json)

/-- Models `requests.Response.raise_for_status`: an `HTTPError` (a
`RequestException`) for 4xx client and 5xx server statuses, with the
message requests renders; no exception otherwise. -/
def raise_for_status (status : Nat) (reason : String) : Option String :=
  if 400 ≤ status ∧ status < 500 then
    some (toString status ++ " Client Error: " ++ reason ++ " for url: " ++ completionUrl)
  else if 500 ≤ status ∧ status < 600 then
    some (toString status ++ " Server Error: " ++ reason ++ " for url: " ++ completionUrl)
  else
    none

/-- The inner `try` block of lines 151-164: `requests.post`,
`raise_for_status`, `response.json()` and the extraction of line 156.
Any `RequestException` (network fault, bad status, and — with requests ≥
2.27 — a JSON decode failure, whose `JSONDecodeError` subclasses
`RequestException`) is caught by the inner `except` and re-raised as
`HTTPException(500, str(e))`; an extraction exception (e.g. `IndexError`)
is not a `RequestException` and propagates as itself. -/
def completion_step (post : PostOutcome) : Except PyExc Json :=
  match post with
  | .netError detail => .error (.httpException 500 detail)
  | .response status reason body =>
      match raise_for_status status reason with
      | some detail => .error (.httpException 500 detail)
      | none =>
          match body with
          | .error e => .error (.httpException 500 e)
          | .ok response_data => extract_model_response response_data

/-! ## The request handler (`sample_supabase_agent`, lines 92-197) -/

/-- A store access the handler performed: the history select, or a
successfully persisted insert of one message row.  (A failed insert
persists nothing and so records no operation.) -/
inductive StoreOp where
  | read (session_id : String)
  | insert (session_id : String) (message : MessageObj)

/-- What the endpoint hands back to FastAPI: the JSON body
`{success: bool}` with HTTP status 200, or an uncaught
`HTTPException(code, detail)` that FastAPI renders as an HTTP-level
error response. -/
inductive HandlerResult where
  | ok (success : Bool)
  | httpError (status_code : Nat) (detail : String)

/-- The HTTP status code of a result: 200 for the in-band body,
the exception's code otherwise. -/
def HandlerResult.statusCode : HandlerResult → Nat
  | .ok _ => 200
  | .httpError code _ => code

/-- The outcome of each external interaction a single request can
perform, fixed up front: the history select's outcome, and for each of
the three possible inserts `none` (success) or `some e` (the store
raises, `str(e) = e`), plus the completion `requests.post` outcome. -/
structure Env where
  storeQuery : Except String (List Row)
  userInsert : Option String
  post : PostOutcome
  aiInsert : Option String
  apologyInsert : Option String

/-- The detail `store_message` gives its re-raised `HTTPException(500, ...)`
(line 90). -/
def storeFailDetail (e : String) : String := "Failed to store message: " ++ e

/-- The fixed apology text of line 194. -/
def apologyText : String :=
  "I apologize, but I encountered an error processing your request."

/-- The `except Exception` block of lines 188-197: a best-effort
`store_message(session_id, "ai", apology, {"error": str(e), "request_id":
...})` followed by `AgentResponse(success=False)`.  When that apology
insert itself raises, `store_message`'s `HTTPException(500, ...)`
propagates out of the handler uncaught. -/
def handleFailure (request : AgentRequest) (env : Env) (e : PyExc)
    (ops : List StoreOp) : HandlerResult × List StoreOp :=
  match env.apologyInsert with
  | some err => (.httpError 500 (storeFailDetail err), ops)
  | none =>
      (.ok false,
        ops ++ [.insert request.session_id
          (mkMessageObj "ai" (.str apologyText)
            (some [("error", strOfExc e), ("request_id", request.request_id)]))])

/-- The body of `sample_supabase_agent` after the `verify_token`
dependency has passed (the `try` of lines 97-186 with the `except` of
lines 188-197): fetch history, project it, store the `human` turn, call
the completion API, store the `ai` turn, return `success=True`; any
exception along the way goes to `handleFailure`. -/
def sample_supabase_agent (request : AgentRequest) (env : Env) :
    HandlerResult × List StoreOp :=
  let readOp := StoreOp.read request.session_id
  match fetch_conversation_history env.storeQuery with
  | .error e => handleFailure request env e [readOp]
  | .ok conversation_history =>
      let _messages := convertHistory conversation_history
      match env.userInsert with
      | some err =>
          handleFailure request env (.httpException 500 (storeFailDetail err)) [readOp]
      | none =>
          let humanOp := StoreOp.insert request.session_id
            (mkMessageObj "human" (.str request.query) none)
          match completion_step env.post with
          | .error e => handleFailure request env e [readOp, humanOp]
          | .ok model_response =>
              match env.aiInsert with
              | some err =>
                  handleFailure request env (.httpException 500 (storeFailDetail err))
                    [readOp, humanOp]
              | none =>
                  (.ok true,
                    [readOp, humanOp,
                      .insert request.session_id
                        (mkMessageObj "ai" model_response
                          (some [("request_id", request.request_id)]))])

/-- The whole endpoint as FastAPI drives it: the `HTTPBearer` security
dependency extracts the credential, `verify_token` checks it, and only
then does the handler body run.  A failing dependency yields the
exception's HTTP error with no store access at all. -/
def endpoint (expected_token : Option String) (authorization : Option String)
    (request : AgentRequest) (env : Env) : HandlerResult × List StoreOp :=
  match http_bearer authorization with
  | .error (.httpException code detail) => (.httpError code detail, [])
  | .error e => (.httpError 500 (strOfExc e), [])
  | .ok credentials =>
      match verify_token expected_token credentials with
      | .error (.httpException code detail) => (.httpError code detail, [])
      | .error e => (.httpError 500 (strOfExc e), [])
      | .ok _ => sample_supabase_agent request env

/-! ## Trace helpers -/

/-- The successfully inserted message rows of a trace, in order. -/
def insertsOf (ops : List StoreOp) : List (String × MessageObj) :=
  ops.filterMap fun op =>
    match op with
    | .insert sid m => some (sid, m)
    | .read _ => none

/-- How many persisted messages of a trace carry the given role tag. -/
def countRole (ops : List StoreOp) (role : String) : Nat :=
  (insertsOf ops).countP fun r => r.2.type == role

/-- Whether a trace touches the store at all. -/
def touchesStore (ops : List StoreOp) : Bool := !ops.isEmpty

/-! ## The store-side query

What the Supabase select of lines 62-67 computes over the `messages`
table: filter by `session_id`, order by `created_at` newest-first,
return at most `limit` rows. -/

/-- Newest-first order on rows (the select's `order("created_at",
desc=True)`). -/
def newestFirst (a b : Row) : Prop := b.created_at ≤ a.created_at

/-- Chronological, oldest-first order on rows. -/
def oldestFirst (a b : Row) : Prop := a.created_at ≤ b.created_at

instance : DecidableRel newestFirst :=
  fun a b => inferInstanceAs (Decidable (b.created_at ≤ a.created_at))

instance : IsTotal Row newestFirst := ⟨fun a b => Nat.le_total b.created_at a.created_at⟩

instance : IsTrans Row newestFirst := ⟨fun _ _ _ h1 h2 => Nat.le_trans h2 h1⟩

/-- The select `eq("session_id", sid).order("created_at",
desc=True).limit(limit)` over the whole table. -/
def supabase_select (table : List Row) (session_id : String) (limit : Nat) :
    List Row :=
  (((table.filter fun r => r.session_id == session_id).insertionSort
    newestFirst).take limit)

/-- The History Reader together with the projection the handler applies to
it (lines 99-109): fetch, then turn each row into a role/content pair. -/
def history_pipeline (outcome : Except String (List Row)) :
    Except PyExc (List ChatMessage) :=
  match fetch_conversation_history outcome with
  | .error e => .error e
  | .ok conversation_history => .ok (convertHistory conversation_history)

/-- The durable effect of one successful `store_message` call on the
`messages` table: one row is appended, with no lookup, no read-after-write
and no deduplication against existing rows. -/
def store_message_effect (store : List (String × MessageObj))
    (session_id message_type : String) (content : Json)
    (data : Option (List (String × String))) : List (String × MessageObj) :=
  store ++ [(session_id, mkMessageObj message_type content data)]

/-! ## Concrete fixtures used by witnesses and counterexamples -/

/-- A concrete inbound request. -/
def reqC : AgentRequest :=
  { query := "print(1)", user_id := "u1", request_id := "r1", session_id := "s1" }

/-- A well-shaped completion-API response body with text "hello". -/
def goodBody : Json :=
  .obj [("choices",
    .arr [.obj [("message", .obj [("content", .str "hello")])]])]

/-- An environment in which every external interaction succeeds. -/
def envAllOk : Env :=
  { storeQuery := .ok []
    userInsert := none
    post := .response 200 "OK" (.ok goodBody)
    aiInsert := none
    apologyInsert := none }

/-- An environment whose history select fails and whose best-effort apology
insert fails too. -/
def envApologyFails : Env :=
  { storeQuery := .error "connection reset"
    userInsert := none
    post := .response 200 "OK" (.ok goodBody)
    aiInsert := none
    apologyInsert := some "connection reset" }

/-- An environment whose history select fails but whose apology insert
succeeds. -/
def envFetchFails : Env :=
  { storeQuery := .error "connection reset"
    userInsert := none
    post := .response 200 "OK" (.ok goodBody)
    aiInsert := none
    apologyInsert := none }

/-- An environment in which only the completion call fails (the network
request raises). -/
def envPostFails : Env :=
  { storeQuery := .ok []
    userInsert := none
    post := .netError "connection refused"
    aiInsert := none
    apologyInsert := none }

/-- The two-row store response of the reversal test: `human`/"a" newest,
`ai`/"b" older, as the store returns them (newest-first). -/
def storeRowsC : List Row :=
  [ { session_id := "s1", created_at := 2
      message := { type := "human", content := .str "a", data := none } },
    { session_id := "s1", created_at := 1
      message := { type := "ai", content := .str "b", data := none } } ]

/-- The role tags of a projected history, used to compare orders. -/
def rolesOf (messages : List ChatMessage) : List String :=
  messages.map ChatMessage.role

/-- The roles the pipeline yields on a store outcome (empty on an error). -/
def pipelineRoles (outcome : Except String (List Row)) : List String :=
  match history_pipeline outcome with
  | .error _ => []
  | .ok messages => rolesOf messages

/-- Whether the completion-response extraction raised. -/
def raisesExc (r : Except PyExc Json) : Bool :=
  match r with
  | .error _ => true
  | .ok _ => false

/-- A fully successful run: every step from the history select to the
assistant-turn insert succeeds. -/
def fullSuccess (env : Env) : Prop :=
  (∃ data, env.storeQuery = .ok data) ∧ env.userInsert = none
    ∧ (∃ reply, completion_step env.post = .ok reply) ∧ env.aiInsert = none

/-! ## Claims -/

/-- C10: the Token Verifier treats an empty-string configured token the
same as an absent one — every credential, the empty string included, is
answered with the HTTP 500 configuration error, so authentication can
never succeed with an empty configured secret. -/
theorem c10_empty_token_is_unconfigured (credentials : String) :
    verify_token (some "") credentials
      = .error (.httpException 500 "API_BEARER_TOKEN environment variable not set")
    ∧ verify_token (some "") credentials = verify_token none credentials
    ∧ verify_token (some "") ""
      = .error (.httpException 500 "API_BEARER_TOKEN environment variable not set") :=
  ⟨rfl, rfl, rfl⟩

/-- C8 counterexample: a request with no bearer credential at all is
rejected by the security scheme with HTTP 403 ("Not authenticated"), not
with the HTTP 401 the claim states — though indeed with no store access. -/
theorem c8_missing_credential_counterexample :
    (endpoint (some "sekrit") none reqC envAllOk).1
      = .httpError 403 "Not authenticated"
    ∧ (endpoint (some "sekrit") none reqC envAllOk).1.statusCode ≠ 401
    ∧ (endpoint (some "sekrit") none reqC envAllOk).2 = [] :=
  ⟨rfl, by decide, rfl⟩

/-- C8 amended: a missing credential is rejected by the bearer scheme with
HTTP 403, a mismatching credential with HTTP 401, and an unconfigured (or
empty) expected token with HTTP 500 — in every case before any store
access occurs (the store-operation trace is empty). -/
theorem c8_auth_rejection_before_store_access (expected : Option String)
    (authorization : Option String) (request : AgentRequest) (env : Env) :
    (authorization = none →
      endpoint expected authorization request env
        = (.httpError 403 "Not authenticated", []))
    ∧ (∀ t c, expected = some t → t ≠ "" → authorization = some c → c ≠ t →
        endpoint expected authorization request env
          = (.httpError 401 "Invalid authentication token", []))
    ∧ (∀ c, authorization = some c → (expected = none ∨ expected = some "") →
        endpoint expected authorization request env
          = (.httpError 500 "API_BEARER_TOKEN environment variable not set", [])) := by
  refine ⟨?_, ?_, ?_⟩
  · rintro rfl
    rfl
  · rintro t c rfl ht rfl hct
    simp [endpoint, http_bearer, verify_token, ht, hct]
  · rintro c rfl (rfl | rfl)
    · rfl
    · rfl

/-- C4 counterexample: on the store response
`[{type: human, content: "a"}, {type: ai, content: "b"}]` (newest-first)
the History Reader plus the handler projection yields
`[{role: ai, content: "b"}, {role: human, content: "a"}]` — the reversal —
not the same-order sequence the claim states. -/
theorem c4_same_order_counterexample :
    pipelineRoles (.ok storeRowsC) = ["ai", "human"]
    ∧ pipelineRoles (.ok storeRowsC) ≠ ["human", "ai"]
    ∧ history_pipeline (.ok storeRowsC)
      = .ok [{ role := "ai", content := .str "b" },
             { role := "human", content := .str "a" }] :=
  ⟨rfl, by decide, rfl⟩

/-- C4 amended: for the store response
`[{type: human, content: "a"}, {type: ai, content: "b"}]` (newest-first)
the History Reader followed by the handler projection yields the
oldest-first sequence `[{role: ai, content: "b"}, {role: human,
content: "a"}]`. -/
theorem c4_projection_of_reversed_history :
    history_pipeline (.ok storeRowsC)
      = .ok [{ role := "ai", content := .str "b" },
             { role := "human", content := .str "a" }]
    ∧ pipelineRoles (.ok storeRowsC) = ["ai", "human"] :=
  ⟨rfl, rfl⟩

/-- C5 counterexample: a success response whose body is `{"choices": []}`
makes the extraction expression raise `IndexError` (the `.get("choices",
[{}])` default is not used, and `[0]` on the empty list raises), so the
extraction is not total and does not yield the empty string there. -/
theorem c5_empty_choices_counterexample :
    extract_model_response (.obj [("choices", .arr [])])
      = .error (.indexError "list index out of range")
    ∧ raisesExc (extract_model_response (.obj [("choices", .arr [])])) = true :=
  ⟨rfl, rfl⟩

/-- C5 amended: the extraction yields the first choice's message content
when the shape is as expected, and the empty string when the `choices`
key, the first choice's `message` key, or the message's `content` key is
absent — but it is not total: on a body whose `choices` is present and an
empty array it raises `IndexError`. -/
theorem c5_extraction_shapes :
    (∀ (content : Json) (rest : List Json),
      extract_model_response (.obj [("choices",
          .arr (.obj [("message", .obj [("content", content)])] :: rest))])
        = .ok content)
    ∧ (∀ fields, dictLookup fields "choices" = none →
        extract_model_response (.obj fields) = .ok (.str ""))
    ∧ (∀ (firstFields : List (String × Json)) (rest : List Json),
        dictLookup firstFields "message" = none →
        extract_model_response (.obj [("choices", .arr (.obj firstFields :: rest))])
          = .ok (.str ""))
    ∧ (∀ (msgFields : List (String × Json)) (rest : List Json),
        dictLookup msgFields "content" = none →
        extract_model_response (.obj [("choices",
            .arr (.obj [("message", .obj msgFields)] :: rest))])
          = .ok (.str ""))
    ∧ extract_model_response (.obj [("choices", .arr [])])
      = .error (.indexError "list index out of range") := by
  refine ⟨fun content rest => rfl, ?_, ?_, ?_, rfl⟩
  · intro fields h
    simp only [dictLookup] at h
    simp [extract_model_response, pyGet, pySubscriptZero, dictLookup,
      Bind.bind, Except.bind, h]
  · intro firstFields rest h
    simp only [dictLookup] at h
    simp [extract_model_response, pyGet, pySubscriptZero, dictLookup,
      Bind.bind, Except.bind, h]
  · intro msgFields rest h
    simp only [dictLookup] at h
    simp [extract_model_response, pyGet, pySubscriptZero, dictLookup,
      Bind.bind, Except.bind, h]

/-- C3: the History Reader returns exactly the reversal of the sequence
the store hands back; when that sequence is newest-first the result is
chronological oldest-first; and the store-side select itself returns at
most `limit` rows, newest-first, all of the requested session. -/
theorem c3_reader_reverses_store_order (table : List Row) (sid : String)
    (limit : Nat) (data : List Row) :
    fetch_conversation_history (.ok data) = .ok data.reverse
    ∧ (data.Pairwise newestFirst → data.reverse.Pairwise oldestFirst)
    ∧ (supabase_select table sid limit).length ≤ limit
    ∧ (supabase_select table sid limit).Pairwise newestFirst
    ∧ ∀ r ∈ supabase_select table sid limit, r.session_id = sid := by
  refine ⟨rfl, ?_, ?_, ?_, ?_⟩
  · intro h
    rw [List.pairwise_reverse]
    exact h
  · simp only [supabase_select]
    rw [List.length_take]
    exact Nat.min_le_left _ _
  · exact List.Pairwise.sublist (List.take_sublist _ _)
      (List.sorted_insertionSort newestFirst _)
  · intro r hr
    have h1 : r ∈ (table.filter fun x => x.session_id == sid).insertionSort
        newestFirst := List.mem_of_mem_take hr
    have h2 : r ∈ table.filter fun x => x.session_id == sid :=
      ((List.perm_insertionSort newestFirst _).mem_iff).1 h1
    exact eq_of_beq (List.mem_filter.1 h2).2

/-- C1 counterexample: when the history fetch fails and the best-effort
apology insert fails too, the apology write's own `HTTPException(500, ...)`
propagates out of the `except` block uncaught, so this post-authentication
fault reaches the caller as an HTTP 500, not as an in-band
`{success: false}` at HTTP 200. -/
theorem c1_apology_write_5xx_counterexample :
    (sample_supabase_agent reqC envApologyFails).1
      = .httpError 500 (storeFailDetail "connection reset")
    ∧ (sample_supabase_agent reqC envApologyFails).1.statusCode = 500
    ∧ (sample_supabase_agent reqC envApologyFails).1.statusCode ≠ 200 :=
  ⟨rfl, rfl, by decide⟩

/-- C1 amended: provided the best-effort apology insert succeeds, every
post-authentication run answers in-band at HTTP 200 — `{success: false}`
whenever any of the history fetch, the user-turn insert, the completion
call or the assistant-turn insert failed, and `{success: true}` exactly
when all of them succeeded; only a failing apology insert itself produces
a 5xx. -/
theorem c1_no_5xx_when_apology_succeeds (request : AgentRequest) (env : Env)
    (h : env.apologyInsert = none) :
    ((sample_supabase_agent request env).1 = .ok true
      ∨ (sample_supabase_agent request env).1 = .ok false)
    ∧ (sample_supabase_agent request env).1.statusCode = 200
    ∧ (¬ fullSuccess env → (sample_supabase_agent request env).1 = .ok false)
    ∧ (fullSuccess env → (sample_supabase_agent request env).1 = .ok true) := by
  rcases hq : env.storeQuery with e | data
  · simp [sample_supabase_agent, fetch_conversation_history, handleFailure,
      hq, h, HandlerResult.statusCode, fullSuccess]
  · rcases hu : env.userInsert with _ | err
    · rcases hc : completion_step env.post with e | reply
      · simp [sample_supabase_agent, fetch_conversation_history, handleFailure,
          hq, hu, hc, h, HandlerResult.statusCode, fullSuccess]
      · rcases ha : env.aiInsert with _ | err2
        · have hfs : fullSuccess env := ⟨⟨data, hq⟩, hu, ⟨reply, hc⟩, ha⟩
          simp [sample_supabase_agent, fetch_conversation_history,
            hq, hu, hc, ha, HandlerResult.statusCode, hfs]
        · simp [sample_supabase_agent, fetch_conversation_history, handleFailure,
            hq, hu, hc, ha, h, HandlerResult.statusCode, fullSuccess]
    · simp [sample_supabase_agent, fetch_conversation_history, handleFailure,
        hq, hu, h, HandlerResult.statusCode, fullSuccess]

/-- C1 witness: with a concrete request in the environment whose history
fetch fails (and whose apology insert succeeds), the run answers
`{success: false}` in-band at HTTP 200. -/
theorem c1_no_5xx_witness :
    ((sample_supabase_agent reqC envFetchFails).1 = .ok true
      ∨ (sample_supabase_agent reqC envFetchFails).1 = .ok false)
    ∧ (sample_supabase_agent reqC envFetchFails).1.statusCode = 200
    ∧ (¬ fullSuccess envFetchFails → (sample_supabase_agent reqC envFetchFails).1 = .ok false)
    ∧ (fullSuccess envFetchFails → (sample_supabase_agent reqC envFetchFails).1 = .ok true) :=
  c1_no_5xx_when_apology_succeeds reqC envFetchFails rfl

/-- C2 counterexample: when the history fetch fails (with the apology
insert succeeding), the run persists no `human` message at all — not the
exactly-one the claim states for every authenticated request — while one
`ai` apology message is persisted. -/
theorem c2_fetch_failure_counterexample :
    countRole (sample_supabase_agent reqC envFetchFails).2 "human" = 0
    ∧ countRole (sample_supabase_agent reqC envFetchFails).2 "human" ≠ 1
    ∧ countRole (sample_supabase_agent reqC envFetchFails).2 "ai" = 1 :=
  ⟨rfl, by decide, rfl⟩

/-- C2 amended: exactly one `human` message is persisted iff the history
fetch and the user-turn insert succeed (its content is then the incoming
query), and exactly one `ai` message is persisted iff either the whole run
succeeds (the assistant turn) or the best-effort apology insert succeeds
(the apology turn); in every other case the respective count is not one. -/
theorem c2_turn_write_characterization (request : AgentRequest) (env : Env) :
    (countRole (sample_supabase_agent request env).2 "human" = 1
      ↔ (∃ data, env.storeQuery = .ok data) ∧ env.userInsert = none)
    ∧ (countRole (sample_supabase_agent request env).2 "ai" = 1
      ↔ (fullSuccess env ∨ env.apologyInsert = none))
    ∧ ((∃ data, env.storeQuery = .ok data) → env.userInsert = none →
        (insertsOf (sample_supabase_agent request env).2).filter
            (fun r => r.2.type == "human")
          = [(request.session_id, mkMessageObj "human" (.str request.query) none)]) := by
  rcases hq : env.storeQuery with e | data
  · rcases hap : env.apologyInsert with _ | err
    · simp [sample_supabase_agent, fetch_conversation_history, handleFailure,
        hq, hap, countRole, insertsOf, mkMessageObj, fullSuccess]
    · simp [sample_supabase_agent, fetch_conversation_history, handleFailure,
        hq, hap, countRole, insertsOf, mkMessageObj, fullSuccess]
  · rcases hu : env.userInsert with _ | err
    · rcases hc : completion_step env.post with e | reply
      · rcases hap : env.apologyInsert with _ | err2
        · simp [sample_supabase_agent, fetch_conversation_history, handleFailure,
            hq, hu, hc, hap, countRole, insertsOf, mkMessageObj, fullSuccess]
        · simp [sample_supabase_agent, fetch_conversation_history, handleFailure,
            hq, hu, hc, hap, countRole, insertsOf, mkMessageObj, fullSuccess]
      · rcases ha : env.aiInsert with _ | err2
        · simp [sample_supabase_agent, fetch_conversation_history,
            hq, hu, hc, ha, countRole, insertsOf, mkMessageObj, fullSuccess]
        · rcases hap : env.apologyInsert with _ | err3
          · simp [sample_supabase_agent, fetch_conversation_history, handleFailure,
              hq, hu, hc, ha, hap, countRole, insertsOf, mkMessageObj, fullSuccess]
          · simp [sample_supabase_agent, fetch_conversation_history, handleFailure,
              hq, hu, hc, ha, hap, countRole, insertsOf, mkMessageObj, fullSuccess]
    · rcases hap : env.apologyInsert with _ | err2
      · simp [sample_supabase_agent, fetch_conversation_history, handleFailure,
          hq, hu, hap, countRole, insertsOf, mkMessageObj, fullSuccess]
      · simp [sample_supabase_agent, fetch_conversation_history, handleFailure,
          hq, hu, hap, countRole, insertsOf, mkMessageObj, fullSuccess]

/-- C6: when every step succeeds, the handler persists exactly two new
messages — one `human` turn whose content is the query, then one `ai` turn
whose content is the model reply with the request id in its metadata — and
answers `{success: true}`; conversely, `{success: true}` is only returned
when the assistant turn was stored (the trace ends with it and the
completion and the assistant insert succeeded). -/
theorem c6_success_persists_two_turns (request : AgentRequest) (env : Env)
    (data : List Row) (reply : Json)
    (hq : env.storeQuery = .ok data) (hu : env.userInsert = none)
    (hc : completion_step env.post = .ok reply) (ha : env.aiInsert = none) :
    sample_supabase_agent request env
      = (.ok true,
          [.read request.session_id,
           .insert request.session_id (mkMessageObj "human" (.str request.query) none),
           .insert request.session_id
             (mkMessageObj "ai" reply (some [("request_id", request.request_id)]))])
    ∧ countRole (sample_supabase_agent request env).2 "human" = 1
    ∧ countRole (sample_supabase_agent request env).2 "ai" = 1
    ∧ (∀ (req2 : AgentRequest) (env2 : Env),
        (sample_supabase_agent req2 env2).1 = .ok true →
        ∃ reply2, completion_step env2.post = .ok reply2 ∧ env2.aiInsert = none ∧
          (sample_supabase_agent req2 env2).2
            = [.read req2.session_id,
               .insert req2.session_id (mkMessageObj "human" (.str req2.query) none),
               .insert req2.session_id
                 (mkMessageObj "ai" reply2 (some [("request_id", req2.request_id)]))]) := by
  have hmain : sample_supabase_agent request env
      = (.ok true,
          [.read request.session_id,
           .insert request.session_id (mkMessageObj "human" (.str request.query) none),
           .insert request.session_id
             (mkMessageObj "ai" reply (some [("request_id", request.request_id)]))]) := by
    simp [sample_supabase_agent, fetch_conversation_history, hq, hu, hc, ha]
  refine ⟨hmain, ?_, ?_, ?_⟩
  · rw [hmain]
    simp [countRole, insertsOf, mkMessageObj]
  · rw [hmain]
    simp [countRole, insertsOf, mkMessageObj]
  · intro req2 env2 hs
    rcases hq2 : env2.storeQuery with e | data2
    · rcases hap2 : env2.apologyInsert with _ | err <;>
        simp [sample_supabase_agent, fetch_conversation_history, handleFailure,
          hq2, hap2] at hs
    · rcases hu2 : env2.userInsert with _ | err
      · rcases hc2 : completion_step env2.post with e | reply2
        · rcases hap2 : env2.apologyInsert with _ | err <;>
            simp [sample_supabase_agent, fetch_conversation_history, handleFailure,
              hq2, hu2, hc2, hap2] at hs
        · rcases ha2 : env2.aiInsert with _ | err
          · exact ⟨reply2, rfl, rfl,
              by simp [sample_supabase_agent, fetch_conversation_history,
                hq2, hu2, hc2, ha2]⟩
          · rcases hap2 : env2.apologyInsert with _ | err2 <;>
              simp [sample_supabase_agent, fetch_conversation_history, handleFailure,
                hq2, hu2, hc2, ha2, hap2] at hs
      · rcases hap2 : env2.apologyInsert with _ | err2 <;>
          simp [sample_supabase_agent, fetch_conversation_history, handleFailure,
            hq2, hu2, hap2] at hs

/-- C6 witness: the success trace at a concrete request and the all-success
environment. -/
theorem c6_success_witness :
    sample_supabase_agent reqC envAllOk
      = (.ok true,
          [.read reqC.session_id,
           .insert reqC.session_id (mkMessageObj "human" (.str reqC.query) none),
           .insert reqC.session_id
             (mkMessageObj "ai" (.str "hello") (some [("request_id", reqC.request_id)]))]) :=
  (c6_success_persists_two_turns reqC envAllOk [] (.str "hello") rfl rfl rfl rfl).1

/-- C7: when only the completion call fails — the request raises a network
fault or `raise_for_status` rejects the response status — the handler
answers `{success: false}` and the persisted `ai` message carries the fixed
apology text, with `data.error` the failure detail (prefixed by the
re-raised exception's status, so containing the detail) and
`data.request_id` the inbound request id. -/
theorem c7_completion_failure_stores_apology (request : AgentRequest) (env : Env)
    (data : List Row)
    (hq : env.storeQuery = .ok data) (hu : env.userInsert = none)
    (hap : env.apologyInsert = none) :
    (∀ d, env.post = .netError d →
      sample_supabase_agent request env
        = (.ok false,
            [.read request.session_id,
             .insert request.session_id (mkMessageObj "human" (.str request.query) none),
             .insert request.session_id
               (mkMessageObj "ai" (.str apologyText)
                 (some [("error", strOfExc (.httpException 500 d)),
                        ("request_id", request.request_id)]))])
      ∧ strOfExc (PyExc.httpException 500 d) = "500: " ++ d
      ∧ ∃ p, strOfExc (PyExc.httpException 500 d) = p ++ d)
    ∧ (∀ status reason body detail, env.post = .response status reason body →
        raise_for_status status reason = some detail →
        sample_supabase_agent request env
          = (.ok false,
              [.read request.session_id,
               .insert request.session_id (mkMessageObj "human" (.str request.query) none),
               .insert request.session_id
                 (mkMessageObj "ai" (.str apologyText)
                   (some [("error", strOfExc (.httpException 500 detail)),
                          ("request_id", request.request_id)]))])
        ∧ strOfExc (PyExc.httpException 500 detail) = "500: " ++ detail
        ∧ ∃ p, strOfExc (PyExc.httpException 500 detail) = p ++ detail) := by
  have h500 : (toString (500 : Nat) ++ ": ") = "500: " := by decide
  have hstr : ∀ d : String, strOfExc (.httpException 500 d) = "500: " ++ d := by
    intro d
    show (toString (500 : Nat) ++ ": ") ++ d = "500: " ++ d
    rw [h500]
  constructor
  · intro d hpost
    refine ⟨?_, hstr d, ⟨"500: ", hstr d⟩⟩
    simp [sample_supabase_agent, fetch_conversation_history, handleFailure,
      completion_step, hq, hu, hap, hpost]
  · intro status reason body detail hpost hrs
    refine ⟨?_, hstr detail, ⟨"500: ", hstr detail⟩⟩
    simp [sample_supabase_agent, fetch_conversation_history, handleFailure,
      completion_step, hq, hu, hap, hpost, hrs]

/-- C7 witness: the apology trace at a concrete request in the environment
whose completion request raises a network fault. -/
theorem c7_apology_witness :
    sample_supabase_agent reqC envPostFails
      = (.ok false,
          [.read reqC.session_id,
           .insert reqC.session_id (mkMessageObj "human" (.str reqC.query) none),
           .insert reqC.session_id
             (mkMessageObj "ai" (.str apologyText)
               (some [("error", strOfExc (.httpException 500 "connection refused")),
                      ("request_id", reqC.request_id)]))])
    ∧ strOfExc (PyExc.httpException 500 "connection refused")
      = "500: " ++ "connection refused"
    ∧ ∃ p, strOfExc (PyExc.httpException 500 "connection refused")
      = p ++ "connection refused" :=
  (c7_completion_failure_stores_apology reqC envPostFails [] rfl rfl rfl).1
    "connection refused" rfl

/-- C9: the Message Writer deduplicates nothing — two calls with the same
session, role, content and metadata append two independent records (the
store grows by exactly two) — and two fully successful runs of the handler
with one and the same request append two independent `human`/`ai` pairs,
the same `request_id` in both `ai` rows. -/
theorem c9_no_deduplication (store : List (String × MessageObj))
    (session_id message_type : String) (content : Json)
    (data : Option (List (String × String))) :
    store_message_effect
        (store_message_effect store session_id message_type content data)
        session_id message_type content data
      = store ++ [(session_id, mkMessageObj message_type content data),
                  (session_id, mkMessageObj message_type content data)]
    ∧ (store_message_effect
          (store_message_effect store session_id message_type content data)
          session_id message_type content data).length = store.length + 2
    ∧ (∀ (request : AgentRequest) (env : Env) (hist : List Row) (reply : Json),
        env.storeQuery = .ok hist → env.userInsert = none →
        completion_step env.post = .ok reply → env.aiInsert = none →
        insertsOf (sample_supabase_agent request env).2
            ++ insertsOf (sample_supabase_agent request env).2
          = [(request.session_id, mkMessageObj "human" (.str request.query) none),
             (request.session_id,
               mkMessageObj "ai" reply (some [("request_id", request.request_id)])),
             (request.session_id, mkMessageObj "human" (.str request.query) none),
             (request.session_id,
               mkMessageObj "ai" reply (some [("request_id", request.request_id)]))]) := by
  refine ⟨by simp [store_message_effect], by simp [store_message_effect], ?_⟩
  intro request env hist reply hq hu hc ha
  simp [sample_supabase_agent, fetch_conversation_history, insertsOf, hq, hu, hc, ha]

end SupabaseAgent
